import Mathlib

/-!
Shallow embedding of `src/web/linux.rs` from the scrying repository: the
GTK/WebKit web-capture worker.  The file coordinates three execution
contexts — the GTK main loop (rendering surface), a supervisor thread that
walks the target list, and a debounce thread that delays "page ready"
signals — through two channels (a glib control channel of `GuiMessage` and
an mpsc result channel of `Result<Vec<u8>, String>`) and one shared atomic
flag `targets_exhausted`.

Modelling conventions:
* Rust `Result<Vec<u8>, String>` (the result channel's payload) becomes
  `CaptureResult` with constructors `Ok`/`Err`; bytes are `List Nat`.
* A Rust panic (an `unwrap()` on a failed operation) is modelled as
  `Except.error msg`; normal completion as `Except.ok`.
* GTK calls made by the `PageReady` arm (`webview.get_window()`,
  `win.get_pixbuf(0, 0, WIDTH, HEIGHT)`, `pix.save_to_bufferv("png")`)
  are oracles packaged in `WebViewEnv`, since the GTK library itself is an
  external collaborator.
* The mpsc result channel's sender is summarised by one Bool, `connected`:
  `img_tx.send(x)` succeeds iff the receiver (owned by the supervisor
  thread) is still alive, exactly mpsc semantics.
-/

namespace Scrying

/-- The `GuiMessage` enum of linux.rs: the control channel's payload. -/
inductive GuiMessage where
  | Navigate (u : String)
  | Exit
  | PageReady
deriving DecidableEq

/-- Payload of the result channel `mpsc::channel::<Result<Vec<u8>, String>>()`:
`Ok(bytes)` for a captured image, `Err(reason)` for a capture failure. -/
inductive CaptureResult where
  | Ok (bytes : List Nat)
  | Err (reason : String)
deriving DecidableEq

/-- Result of `pix.save_to_bufferv("png", &[])`: the PNG bytes, or the
encoder's error message. -/
structure Pixbuf where
  saveToBufferPng : Except String (List Nat)

/-- A GDK window handle; `getPixbuf` is the outcome of
`win.get_pixbuf(0, 0, WIDTH, HEIGHT)` (`None` when read-back fails). -/
structure GdkWindow where
  getPixbuf : Option Pixbuf

/-- Oracle for the GTK state the `PageReady` arm consults:
`getWindow` is the outcome of `webview.get_window()`. -/
structure WebViewEnv where
  getWindow : Option GdkWindow

/-- The panic message of `img_tx.send(..).unwrap()` when the receiving end
of the result channel has been dropped. -/
def sendPanicMsg : String := "called Result::unwrap on an Err value: SendError"

/-- Model of `img_tx.send(r).unwrap()`: when the channel is connected the
message is deposited (a singleton deposit list); when the receiver has been
dropped, `send` returns `Err(SendError)` and the `unwrap()` panics. -/
def sendUnwrap (connected : Bool) (r : CaptureResult) :
    Except String (List CaptureResult) :=
  if connected then Except.ok [r] else Except.error sendPanicMsg

/-- The `GuiMessage::PageReady` arm of `receiver.attach` (linux.rs lines
138–169), the Capture Executor.  Mirrors the source's branch structure:
window absent → `Err("Unable to find window")`; pixbuf read-back `None` →
`Err("Failed to retrieve pixbuf")`; encoder error `e` →
`Err("Failed to process pixbuf: " ++ e)`; success → `Ok(buf)`.  Every
branch performs exactly one `img_tx.send(..).unwrap()`.  Returns the list
of results deposited on the result channel, or the panic message. -/
def pageReadyStep (connected : Bool) (env : WebViewEnv) :
    Except String (List CaptureResult) :=
  match env.getWindow with
  | some win =>
      match win.getPixbuf with
      | some pix =>
          match pix.saveToBufferPng with
          | Except.ok buf => sendUnwrap connected (CaptureResult.Ok buf)
          | Except.error e =>
              sendUnwrap connected
                (CaptureResult.Err ("Failed to process pixbuf: " ++ e))
      | none =>
          sendUnwrap connected (CaptureResult.Err "Failed to retrieve pixbuf")
  | none =>
      sendUnwrap connected (CaptureResult.Err "Unable to find window")

/-- Side effects the `receiver.attach` dispatcher performs on the GTK
objects it owns: `LoadUri` for `webview.load_uri(&u)`, `CloseWindow` for
`window.close()`. -/
inductive GuiAction where
  | LoadUri (u : String)
  | CloseWindow
deriving DecidableEq

/-- State visible from inside the GTK main loop when a control message is
dispatched.  `exhausted` is the value of the shared `targets_exhausted`
atomic at that moment; it is part of the state so that claims about it can
be stated, but note that the `receiver.attach` closure of linux.rs does
not capture (and never reads) the flag. -/
structure SinkState where
  exhausted : Bool
  connected : Bool
  env : WebViewEnv

/-- The whole `receiver.attach` match (linux.rs lines 127–170): dispatch of
one control message inside the GTK main context.  Returns the GUI actions
performed, the results deposited on the result channel, and the
`glib::source::Continue` flag — or the panic message if an `unwrap` fails. -/
def processGuiMessage (s : SinkState) :
    GuiMessage → Except String (List GuiAction × List CaptureResult × Bool)
  | GuiMessage.Navigate u => Except.ok ([GuiAction.LoadUri u], [], true)
  | GuiMessage.Exit => Except.ok ([GuiAction.CloseWindow], [], false)
  | GuiMessage.PageReady =>
      match pageReadyStep s.connected s.env with
      | Except.ok deposits => Except.ok ([], deposits, true)
      | Except.error msg => Except.error msg

/-- Load-lifecycle events delivered to `connect_load_changed`
(webkit2gtk's `LoadEvent`). -/
inductive LoadEvent where
  | Started
  | Redirected
  | Committed
  | Finished
deriving DecidableEq

/-- The `connect_load_changed` closure (linux.rs lines 103–122), the
Render-Event Listener: if `targets_exhausted` reads true the event is
ignored; otherwise only `Finished` forwards a `PageReady` to the debounce
thread's queue (`delayed_gui_sender`).  Returns the messages forwarded. -/
def loadChangedStep (exhausted : Bool) (evt : LoadEvent) : List GuiMessage :=
  if exhausted then []
  else
    match evt with
    | LoadEvent.Finished => [GuiMessage.PageReady]
    | _ => []

/-- The fixed settle delay of the debounce thread:
`thread::sleep(Duration::from_millis(1000))`. -/
def settleMillis : Nat := 1000

/-- The debounce thread (linux.rs lines 96–101): repeatedly receive one
message from `delayed_gui_receiver`, sleep `settleMillis`, then forward the
message to the glib control channel.  Time is modelled in milliseconds.
The input list carries each queued message with its arrival time, in queue
(FIFO) order; `now` is the instant the thread starts waiting.  A `recv`
returns at `max now arrival`; the forward happens `settleMillis` later,
which is also when the next `recv` begins.  Returns each forwarded message
with its forward time, in forward order. -/
def debounceRun : Nat → List (Nat × GuiMessage) → List (Nat × GuiMessage)
  | _, [] => []
  | now, (arr, msg) :: rest =>
      let wake := max now arr + settleMillis
      (wake, msg) :: debounceRun wake rest

/-- A target from `crate::parsing::Target` (that module is outside this
file).  The supervisor loop only distinguishes the `Url` variant from all
others (`if let Target::Url(u) = target`), so every non-URL variant is
collapsed into `Other` carrying its display string. -/
inductive Target where
  | Url (u : String)
  | Other (s : String)
deriving DecidableEq

/-- One observable step of the supervisor thread (linux.rs lines 177–220),
in program order.  `NavSend u` is `sender.send(GuiMessage::Navigate(u))`;
`SkipWarn` is the `warn!("Target .. is not a URL!")` log; `ResultRecv r` is
a successful `img_rx.recv()`; `SaveCall t bytes` is the call to the
external `save` collaborator (which receives `report_tx` internally);
`CaptureFailWarn` is the `warn!("Capture failed: ..")` log;
`DisconnectWarn` is the `warn!("Channel disconnected: ..")` log;
`ReportSend` is a message sent on `report_tx` directly by the supervisor
loop itself (the loop never does this — the constructor exists so that the
property can be stated); `SetExhausted` is
`targets_exhausted.store(true, SeqCst)`; `ExitSend` is
`sender.send(GuiMessage::Exit)`. -/
inductive Event where
  | NavSend (u : String)
  | SkipWarn (s : String)
  | ResultRecv (r : CaptureResult)
  | SaveCall (t : Target) (bytes : List Nat)
  | CaptureFailWarn (reason : String)
  | DisconnectWarn
  | ReportSend (summary : String)
  | SetExhausted
  | ExitSend
deriving DecidableEq

/-- How the supervisor thread terminates: `Completed` means the closure ran
to its end (teardown executed); `Panicked msg` means an `unwrap()` panicked
and the thread died before teardown. -/
inductive Outcome where
  | Completed
  | Panicked (msg : String)
deriving DecidableEq

/-- Oracles for everything the supervisor loop observes from outside:
`ctrlC i` is the value `caught_ctrl_c` reads at the top of the i-th loop
iteration; `recv k` is the outcome of the k-th `img_rx.recv()` (`none`
models `Err(RecvError)`, i.e. a disconnected channel); `saveResult k` is
the k-th call of the external `save` collaborator (its code is outside this
file; only `Ok`/`Err` matters, since an `Err` is `unwrap`ped). -/
structure Oracles where
  ctrlC : Nat → Bool
  recv : Nat → Option CaptureResult
  saveResult : Nat → Except String Unit

/-- The supervisor thread closure (linux.rs lines 177–220): iterate the
target list; on each iteration first poll `caught_ctrl_c` (break if set);
skip non-URL targets with a warning; otherwise send `Navigate` and block on
`img_rx.recv()`.  `Ok(Ok(img))` → `save(..).unwrap()` (panic on save
failure); `Ok(Err(e))` → warn and continue; `Err(_)` (disconnected) → warn
and break.  After the loop (by exhaustion, ctrl-c, or disconnection):
`targets_exhausted.store(true)` then `sender.send(GuiMessage::Exit)`.
Arguments: the remaining targets, the loop-iteration index `i`, and the
recv/save counter `k`.  Returns the event trace and the outcome. -/
def runSupervisor (o : Oracles) :
    List Target → Nat → Nat → List Event × Outcome
  | [], _, _ => ([Event.SetExhausted, Event.ExitSend], Outcome.Completed)
  | t :: ts, i, k =>
    if o.ctrlC i then
      ([Event.SetExhausted, Event.ExitSend], Outcome.Completed)
    else
      match t with
      | Target.Other s =>
          let r := runSupervisor o ts (i + 1) k
          (Event.SkipWarn s :: r.1, r.2)
      | Target.Url u =>
          match o.recv k with
          | some (CaptureResult.Ok img) =>
              match o.saveResult k with
              | Except.ok _ =>
                  let r := runSupervisor o ts (i + 1) (k + 1)
                  (Event.NavSend u :: Event.ResultRecv (CaptureResult.Ok img)
                      :: Event.SaveCall (Target.Url u) img :: r.1, r.2)
              | Except.error e =>
                  ([Event.NavSend u, Event.ResultRecv (CaptureResult.Ok img),
                    Event.SaveCall (Target.Url u) img], Outcome.Panicked e)
          | some (CaptureResult.Err e) =>
              let r := runSupervisor o ts (i + 1) (k + 1)
              (Event.NavSend u :: Event.ResultRecv (CaptureResult.Err e)
                  :: Event.CaptureFailWarn e :: r.1, r.2)
          | none =>
              ([Event.NavSend u, Event.DisconnectWarn,
                Event.SetExhausted, Event.ExitSend], Outcome.Completed)

/-- Alternation checker for supervisor traces: scanning left to right with
the number of outstanding `Navigate`s (`false` = none, `true` = one), a
`NavSend` is legal only when none is outstanding and a `ResultRecv` only
when one is; all other events leave the count unchanged.  `alternates false
tr = true` says `Navigate` sends and result receives strictly alternate in
`tr`, i.e. at most one `Navigate` is ever awaiting its `CaptureResult`. -/
def alternates (outstanding : Bool) : List Event → Bool
  | [] => true
  | e :: rest =>
    match e with
    | Event.NavSend _ => if outstanding then false else alternates true rest
    | Event.ResultRecv _ => if outstanding then alternates false rest else false
    | _ => alternates outstanding rest

/-- Recogniser for report-sink sends in a supervisor trace. -/
def isReportSend : Event → Bool
  | Event.ReportSend _ => true
  | _ => false

/-- A GTK environment in which every call succeeds; the encoded PNG is the
four bytes of the PNG magic prefix used as a demo payload. -/
def demoEnvOk : WebViewEnv := ⟨some ⟨some ⟨Except.ok [137, 80, 78, 71]⟩⟩⟩

/-- A GTK environment in which `webview.get_window()` returns `None`. -/
def demoEnvNoWindow : WebViewEnv := ⟨none⟩

/-- A GTK environment with a window whose pixbuf read-back fails. -/
def demoEnvNoPixbuf : WebViewEnv := ⟨some ⟨none⟩⟩

/-- Oracles for a run in which every capture fails with `Err("boom")`:
ctrl-c never pressed, saves (never reached) succeed. -/
def demoCaptureFailOracles : Oracles :=
  ⟨fun _ => false, fun _ => some (CaptureResult.Err "boom"), fun _ => Except.ok ()⟩

/-- Oracles for a fully successful run: every capture yields `Ok [1, 2]`
and every save succeeds. -/
def demoAllOkOracles : Oracles :=
  ⟨fun _ => false, fun _ => some (CaptureResult.Ok [1, 2]), fun _ => Except.ok ()⟩

/-- Oracles for a run whose captures succeed with `Ok [7]` but whose
persistence step fails with "disk full". -/
def demoSaveFailOracles : Oracles :=
  ⟨fun _ => false, fun _ => some (CaptureResult.Ok [7]), fun _ => Except.error "disk full"⟩

/-- C1: in every supervisor run, `Navigate` sends and result receives
strictly alternate — after a `NavSend` no further `NavSend` occurs until a
`ResultRecv` (or the run ends, e.g. by disconnection), so at most one
`Navigate` is outstanding at any time. -/
theorem supervisor_navigate_alternation (o : Oracles) (ts : List Target) (i k : Nat) :
    alternates false (runSupervisor o ts i k).1 = true := by
  induction ts generalizing i k with
  | nil => rfl
  | cons t ts ih =>
    cases hc : o.ctrlC i with
    | true => simp [runSupervisor, hc, alternates]
    | false =>
      cases t with
      | Other s =>
        simpa [runSupervisor, hc, alternates] using ih (i + 1) k
      | Url u =>
        cases hr : o.recv k with
        | none => simp [runSupervisor, hc, hr, alternates]
        | some r =>
          cases r with
          | Ok img =>
            cases hs : o.saveResult k with
            | ok v =>
              simpa [runSupervisor, hc, hr, hs, alternates] using ih (i + 1) (k + 1)
            | error e => simp [runSupervisor, hc, hr, hs, alternates]
          | Err e =>
            simpa [runSupervisor, hc, hr, alternates] using ih (i + 1) (k + 1)

/-- C2: whenever the supervisor thread runs to completion (list exhausted,
ctrl-c observed, or result channel disconnected), its trace ends with
`SetExhausted` immediately followed by `ExitSend`, and neither event occurs
earlier — the `targets_exhausted` store always happens before the
close-window `Exit` signal is sent. -/
theorem supervisor_sets_exhausted_before_exit (o : Oracles) (ts : List Target)
    (i k : Nat) (h : (runSupervisor o ts i k).2 = Outcome.Completed) :
    ∃ pre, (runSupervisor o ts i k).1 = pre ++ [Event.SetExhausted, Event.ExitSend]
      ∧ Event.SetExhausted ∉ pre ∧ Event.ExitSend ∉ pre := by
  induction ts generalizing i k with
  | nil => exact ⟨[], rfl, by simp, by simp⟩
  | cons t ts ih =>
    cases hc : o.ctrlC i with
    | true => exact ⟨[], by simp [runSupervisor, hc], by simp, by simp⟩
    | false =>
      cases t with
      | Other s =>
        have h' : (runSupervisor o ts (i + 1) k).2 = Outcome.Completed := by
          simpa [runSupervisor, hc] using h
        obtain ⟨pre, hpre, h1, h2⟩ := ih (i + 1) k h'
        exact ⟨Event.SkipWarn s :: pre, by simp [runSupervisor, hc, hpre],
          by simp [h1], by simp [h2]⟩
      | Url u =>
        cases hr : o.recv k with
        | none =>
          exact ⟨[Event.NavSend u, Event.DisconnectWarn],
            by simp [runSupervisor, hc, hr], by simp, by simp⟩
        | some r =>
          cases r with
          | Ok img =>
            cases hs : o.saveResult k with
            | ok v =>
              have h' : (runSupervisor o ts (i + 1) (k + 1)).2 = Outcome.Completed := by
                simpa [runSupervisor, hc, hr, hs] using h
              obtain ⟨pre, hpre, h1, h2⟩ := ih (i + 1) (k + 1) h'
              exact ⟨Event.NavSend u :: Event.ResultRecv (CaptureResult.Ok img)
                  :: Event.SaveCall (Target.Url u) img :: pre,
                by simp [runSupervisor, hc, hr, hs, hpre], by simp [h1], by simp [h2]⟩
            | error e =>
              exfalso
              simp [runSupervisor, hc, hr, hs] at h
          | Err e =>
            have h' : (runSupervisor o ts (i + 1) (k + 1)).2 = Outcome.Completed := by
              simpa [runSupervisor, hc, hr] using h
            obtain ⟨pre, hpre, h1, h2⟩ := ih (i + 1) (k + 1) h'
            exact ⟨Event.NavSend u :: Event.ResultRecv (CaptureResult.Err e)
                :: Event.CaptureFailWarn e :: pre,
              by simp [runSupervisor, hc, hr, hpre], by simp [h1], by simp [h2]⟩

/-- Witness for C2: on a one-target all-successful run the outcome is
`Completed` and the theorem yields the teardown ordering. -/
theorem supervisor_sets_exhausted_before_exit_witness :
    (runSupervisor demoAllOkOracles [Target.Url "http://a"] 0 0).2 = Outcome.Completed
    ∧ ∃ pre, (runSupervisor demoAllOkOracles [Target.Url "http://a"] 0 0).1
        = pre ++ [Event.SetExhausted, Event.ExitSend]
      ∧ Event.SetExhausted ∉ pre ∧ Event.ExitSend ∉ pre :=
  ⟨rfl, supervisor_sets_exhausted_before_exit demoAllOkOracles
    [Target.Url "http://a"] 0 0 rfl⟩

/-- C3 counterexample: the `PageReady` arm does not check the exhausted
flag — with `exhausted = true` it still performs the capture and deposits a
(non-empty) result, contradicting the claim that it deposits nothing once
the flag is set. -/
theorem pageready_ignores_exhausted_counterexample :
    processGuiMessage ⟨true, true, demoEnvOk⟩ GuiMessage.PageReady
      = Except.ok ([], [CaptureResult.Ok [137, 80, 78, 71]], true) := by
  rfl

/-- C3 amended: the sink's dispatch behaviour is entirely independent of
the `exhausted` flag (the `receiver.attach` closure never reads it); the
only exhausted guard is in the Render-Event Listener, which forwards no
message once the flag is true. -/
theorem exhausted_guard_only_in_listener :
    (∀ (ex₁ ex₂ conn : Bool) (env : WebViewEnv) (msg : GuiMessage),
        processGuiMessage ⟨ex₁, conn, env⟩ msg = processGuiMessage ⟨ex₂, conn, env⟩ msg)
    ∧ (∀ evt : LoadEvent, loadChangedStep true evt = []) := by
  constructor
  · intro ex₁ ex₂ conn env msg
    cases msg <;> rfl
  · intro evt
    cases evt <;> rfl

/-- C4 counterexample: if the result channel's receiver has been dropped
(the supervisor thread is gone), the `PageReady` arm panics on
`img_tx.send(..).unwrap()` instead of depositing an `Err` — the callback
can crash, contradicting "never a crash". -/
theorem pageready_panic_counterexample :
    pageReadyStep false demoEnvNoWindow = Except.error sendPanicMsg := by
  rfl

/-- C4 amended: provided the result channel is still connected, the
`PageReady` arm never panics — every branch, including all failure
branches, deposits exactly one result; conversely a panic in the arm can
only happen when the channel is disconnected. -/
theorem pageready_no_panic_when_connected :
    (∀ env : WebViewEnv, ∃ r : CaptureResult, pageReadyStep true env = Except.ok [r])
    ∧ (∀ (env : WebViewEnv) (conn : Bool) (msg : String),
        pageReadyStep conn env = Except.error msg → conn = false) := by
  constructor
  · intro env
    obtain ⟨w⟩ := env
    cases w with
    | none => exact ⟨_, rfl⟩
    | some win =>
      obtain ⟨p⟩ := win
      cases p with
      | none => exact ⟨_, rfl⟩
      | some pix =>
        obtain ⟨enc⟩ := pix
        cases enc with
        | ok buf => exact ⟨_, rfl⟩
        | error e => exact ⟨_, rfl⟩
  · intro env conn msg h
    cases conn with
    | false => rfl
    | true =>
      exfalso
      obtain ⟨w⟩ := env
      cases w with
      | none => simp [pageReadyStep, sendUnwrap] at h
      | some win =>
        obtain ⟨p⟩ := win
        cases p with
        | none => simp [pageReadyStep, sendUnwrap] at h
        | some pix =>
          obtain ⟨enc⟩ := pix
          cases enc with
          | ok buf => simp [pageReadyStep, sendUnwrap] at h
          | error e => simp [pageReadyStep, sendUnwrap] at h

/-- Witness for C4: a connected run on a healthy environment deposits a
result, and the panic equation at a disconnected input discharges the
second conjunct's hypothesis. -/
theorem pageready_no_panic_when_connected_witness :
    (∃ r : CaptureResult, pageReadyStep true demoEnvOk = Except.ok [r])
    ∧ (pageReadyStep false demoEnvNoWindow = Except.error sendPanicMsg
        ∧ false = false) :=
  ⟨pageready_no_panic_when_connected.1 demoEnvOk,
    rfl, pageready_no_panic_when_connected.2 demoEnvNoWindow false sendPanicMsg rfl⟩

/-- C5 counterexample: with the result channel disconnected, processing
`PageReady` deposits zero results (the send fails and the `unwrap()`
panics), contradicting "exactly one result, never zero". -/
theorem pageready_no_deposit_when_disconnected :
    pageReadyStep false demoEnvNoPixbuf = Except.error sendPanicMsg := by
  rfl

/-- C5 amended: provided the result channel is connected, every processing
of `PageReady` deposits exactly one `CaptureResult`, whichever branch is
taken. -/
theorem pageready_exactly_one_deposit (env : WebViewEnv) (bs : List CaptureResult)
    (h : pageReadyStep true env = Except.ok bs) : bs.length = 1 := by
  obtain ⟨w⟩ := env
  cases w with
  | none =>
    simp [pageReadyStep, sendUnwrap] at h
    simp [← h]
  | some win =>
    obtain ⟨p⟩ := win
    cases p with
    | none =>
      simp [pageReadyStep, sendUnwrap] at h
      simp [← h]
    | some pix =>
      obtain ⟨enc⟩ := pix
      cases enc with
      | ok buf =>
        simp [pageReadyStep, sendUnwrap] at h
        simp [← h]
      | error e =>
        simp [pageReadyStep, sendUnwrap] at h
        simp [← h]

/-- Witness for C5: on the healthy demo environment the deposit list is a
concrete singleton and the theorem evaluates its length to 1. -/
theorem pageready_exactly_one_deposit_witness :
    pageReadyStep true demoEnvOk = Except.ok [CaptureResult.Ok [137, 80, 78, 71]]
    ∧ ([CaptureResult.Ok [137, 80, 78, 71]] : List CaptureResult).length = 1 :=
  ⟨rfl, pageready_exactly_one_deposit demoEnvOk [CaptureResult.Ok [137, 80, 78, 71]] rfl⟩

/-- Lower bound on forward times: every message forwarded by a debounce run
that starts waiting at `now` is forwarded no earlier than
`now + settleMillis`. -/
theorem debounce_time_lower_bound (q : List (Nat × GuiMessage)) :
    ∀ (now : Nat), ∀ x ∈ debounceRun now q, now + settleMillis ≤ x.1 := by
  induction q with
  | nil => intro now x hx; simp [debounceRun] at hx
  | cons p rest ih =>
    obtain ⟨arr, msg⟩ := p
    intro now x hx
    simp only [debounceRun, List.mem_cons] at hx
    rcases hx with h | h
    · subst h
      exact Nat.add_le_add_right (Nat.le_max_left now arr) settleMillis
    · have h2 := ih (max now arr + settleMillis) x h
      have h3 : now + settleMillis ≤ max now arr + settleMillis + settleMillis := by
        have := Nat.le_max_left now arr
        omega
      exact le_trans h3 h2

/-- C6: the debounce thread's settle delay is the fixed 1000 ms; the
forwarded stream matches the input queue position by position (same
messages, FIFO order) with each forward at least `settleMillis` after its
arrival; and forwards are strictly sequential — any two are at least a full
settle interval apart, so at most one signal is in flight in the feeder at
a time. -/
theorem debounce_fifo_and_settle (now : Nat) (q : List (Nat × GuiMessage)) :
    settleMillis = 1000
    ∧ List.Forall₂ (fun fwd arrv => fwd.2 = arrv.2 ∧ arrv.1 + settleMillis ≤ fwd.1)
        (debounceRun now q) q
    ∧ List.Pairwise (fun fwd fwd₂ => fwd.1 + settleMillis ≤ fwd₂.1)
        (debounceRun now q) := by
  refine ⟨rfl, ?_, ?_⟩
  · induction q generalizing now with
    | nil => simp [debounceRun]
    | cons p rest ih =>
      obtain ⟨arr, msg⟩ := p
      simp only [debounceRun]
      exact List.Forall₂.cons
        ⟨rfl, Nat.add_le_add_right (Nat.le_max_right now arr) settleMillis⟩
        (ih (max now arr + settleMillis))
  · induction q generalizing now with
    | nil => simp [debounceRun]
    | cons p rest ih =>
      obtain ⟨arr, msg⟩ := p
      simp only [debounceRun]
      refine List.Pairwise.cons ?_ (ih (max now arr + settleMillis))
      intro y hy
      exact debounce_time_lower_bound rest (max now arr + settleMillis) y hy

/-- C7: a persistence failure is fatal — when the current target's capture
succeeds but `save` fails, the run ends immediately with the panic carrying
the save error; the trace stops at the `SaveCall` and contains no event for
any later target, whatever the rest of the list is. -/
theorem persistence_failure_fatal (o : Oracles) (u : String) (ts : List Target)
    (i k : Nat) (img : List Nat) (e : String)
    (hc : o.ctrlC i = false) (hr : o.recv k = some (CaptureResult.Ok img))
    (hs : o.saveResult k = Except.error e) :
    runSupervisor o (Target.Url u :: ts) i k
      = ([Event.NavSend u, Event.ResultRecv (CaptureResult.Ok img),
          Event.SaveCall (Target.Url u) img], Outcome.Panicked e) := by
  simp [runSupervisor, hc, hr, hs]

/-- Witness for C7: with a failing save, the two-target run attempts only
the first target and panics with "disk full"; no event mentions the second
target. -/
theorem persistence_failure_fatal_witness :
    runSupervisor demoSaveFailOracles [Target.Url "http://a", Target.Url "http://b"] 0 0
      = ([Event.NavSend "http://a", Event.ResultRecv (CaptureResult.Ok [7]),
          Event.SaveCall (Target.Url "http://a") [7]], Outcome.Panicked "disk full") :=
  persistence_failure_fatal demoSaveFailOracles "http://a" [Target.Url "http://b"]
    0 0 [7] "disk full" rfl rfl rfl

/-- The supervisor loop itself never sends anything on the report-sink
channel `report_tx`: its traces contain no `ReportSend` event.  (The only
use of `report_tx` in linux.rs is passing it to the external `save`
collaborator, which runs only for successful captures.) -/
theorem supervisor_never_reports (o : Oracles) (ts : List Target) (i k : Nat) :
    (runSupervisor o ts i k).1.countP isReportSend = 0 := by
  induction ts generalizing i k with
  | nil => rfl
  | cons t ts ih =>
    cases hc : o.ctrlC i with
    | true =>
      simp [runSupervisor, hc, List.countP_cons, List.countP_nil, isReportSend]
    | false =>
      cases t with
      | Other s =>
        simp [runSupervisor, hc, List.countP_cons, isReportSend, ih (i + 1) k]
      | Url u =>
        cases hr : o.recv k with
        | none =>
          simp [runSupervisor, hc, hr, List.countP_cons, List.countP_nil, isReportSend]
        | some r =>
          cases r with
          | Ok img =>
            cases hs : o.saveResult k with
            | ok v =>
              simp [runSupervisor, hc, hr, hs, List.countP_cons, isReportSend,
                ih (i + 1) (k + 1)]
            | error e =>
              simp [runSupervisor, hc, hr, hs, List.countP_cons, List.countP_nil,
                isReportSend]
          | Err e =>
            simp [runSupervisor, hc, hr, List.countP_cons, isReportSend,
              ih (i + 1) (k + 1)]

/-- C8 counterexample: a run whose only target fails with `Err("boom")`
produces the `warn!` log event but zero report-sink sends — the failure
summary is logged, not forwarded to the report sink as the claim states. -/
theorem capture_failure_not_reported_counterexample :
    runSupervisor demoCaptureFailOracles [Target.Url "http://a"] 0 0
      = ([Event.NavSend "http://a", Event.ResultRecv (CaptureResult.Err "boom"),
          Event.CaptureFailWarn "boom", Event.SetExhausted, Event.ExitSend],
         Outcome.Completed)
    ∧ (runSupervisor demoCaptureFailOracles [Target.Url "http://a"] 0 0).1.countP
        isReportSend = 0 := by
  exact ⟨rfl, rfl⟩

/-- C8 amended: the supervisor loop sends nothing on the report sink in any
run; a capture failure `Err(e)` is logged with `warn!("Capture failed")`
and the loop then continues with the remaining targets exactly as if the
failing target had been the last event block. -/
theorem capture_failure_warns_and_continues :
    (∀ (o : Oracles) (ts : List Target) (i k : Nat),
        (runSupervisor o ts i k).1.countP isReportSend = 0)
    ∧ (∀ (o : Oracles) (u : String) (ts : List Target) (i k : Nat) (e : String),
        o.ctrlC i = false → o.recv k = some (CaptureResult.Err e) →
        runSupervisor o (Target.Url u :: ts) i k
          = (Event.NavSend u :: Event.ResultRecv (CaptureResult.Err e)
              :: Event.CaptureFailWarn e :: (runSupervisor o ts (i + 1) (k + 1)).1,
             (runSupervisor o ts (i + 1) (k + 1)).2)) := by
  constructor
  · exact supervisor_never_reports
  · intro o u ts i k e hc hr
    simp [runSupervisor, hc, hr]

/-- Witness for C8: a concrete failing capture on the first of two targets
warns and continues into the run on the second target. -/
theorem capture_failure_warns_and_continues_witness :
    demoCaptureFailOracles.ctrlC 0 = false
    ∧ demoCaptureFailOracles.recv 0 = some (CaptureResult.Err "boom")
    ∧ runSupervisor demoCaptureFailOracles
        [Target.Url "http://a", Target.Url "http://b"] 0 0
      = (Event.NavSend "http://a" :: Event.ResultRecv (CaptureResult.Err "boom")
          :: Event.CaptureFailWarn "boom"
          :: (runSupervisor demoCaptureFailOracles [Target.Url "http://b"] 1 1).1,
         (runSupervisor demoCaptureFailOracles [Target.Url "http://b"] 1 1).2) :=
  ⟨rfl, rfl, capture_failure_warns_and_continues.2 demoCaptureFailOracles "http://a"
    [Target.Url "http://b"] 0 0 "boom" rfl rfl⟩

/-- C9 counterexample: when no window handle can be obtained the deposited
reason is `"Unable to find window"`, which is not the string `"no window"`
given in the claim (likewise the pixbuf failure string differs). -/
theorem error_string_counterexample :
    pageReadyStep true demoEnvNoWindow
      = Except.ok [CaptureResult.Err "Unable to find window"]
    ∧ "Unable to find window" ≠ "no window" :=
  ⟨rfl, by decide⟩

/-- C9 amended: the Capture Executor's failure reasons are
`"Unable to find window"` when no window handle can be obtained,
`"Failed to retrieve pixbuf"` when the pixbuf read-back fails, and
`"Failed to process pixbuf: <e>"` when the PNG encoder fails with `e`. -/
theorem capture_error_strings :
    (∀ env : WebViewEnv, env.getWindow = none →
        pageReadyStep true env = Except.ok [CaptureResult.Err "Unable to find window"])
    ∧ (∀ (env : WebViewEnv) (win : GdkWindow), env.getWindow = some win →
        win.getPixbuf = none →
        pageReadyStep true env = Except.ok [CaptureResult.Err "Failed to retrieve pixbuf"])
    ∧ (∀ (env : WebViewEnv) (win : GdkWindow) (pix : Pixbuf) (e : String),
        env.getWindow = some win → win.getPixbuf = some pix →
        pix.saveToBufferPng = Except.error e →
        pageReadyStep true env
          = Except.ok [CaptureResult.Err ("Failed to process pixbuf: " ++ e)]) := by
  refine ⟨?_, ?_, ?_⟩
  · intro env hw
    simp [pageReadyStep, hw, sendUnwrap]
  · intro env win hw hp
    simp [pageReadyStep, hw, hp, sendUnwrap]
  · intro env win pix e hw hp he
    simp [pageReadyStep, hw, hp, he, sendUnwrap]

/-- Witness for C9: the two failure branches evaluated at concrete
environments produce the stated strings. -/
theorem capture_error_strings_witness :
    (demoEnvNoWindow.getWindow = none
      ∧ pageReadyStep true demoEnvNoWindow
          = Except.ok [CaptureResult.Err "Unable to find window"])
    ∧ (demoEnvNoPixbuf.getWindow = some ⟨none⟩
      ∧ pageReadyStep true demoEnvNoPixbuf
          = Except.ok [CaptureResult.Err "Failed to retrieve pixbuf"]) :=
  ⟨⟨rfl, capture_error_strings.1 demoEnvNoWindow rfl⟩,
    ⟨rfl, capture_error_strings.2.1 demoEnvNoPixbuf ⟨none⟩ rfl rfl⟩⟩

/-- C10: whenever the supervisor thread panics (which per C7 is exactly the
persistence-failure case), its trace contains neither the `SetExhausted`
store nor the `ExitSend` close request — the teardown code is never
reached, so the window is not torn down. -/
theorem panic_skips_teardown (o : Oracles) (ts : List Target) (i k : Nat) (e : String)
    (h : (runSupervisor o ts i k).2 = Outcome.Panicked e) :
    Event.SetExhausted ∉ (runSupervisor o ts i k).1
      ∧ Event.ExitSend ∉ (runSupervisor o ts i k).1 := by
  induction ts generalizing i k with
  | nil => simp [runSupervisor] at h
  | cons t ts ih =>
    cases hc : o.ctrlC i with
    | true => simp [runSupervisor, hc] at h
    | false =>
      cases t with
      | Other s =>
        have h' : (runSupervisor o ts (i + 1) k).2 = Outcome.Panicked e := by
          simpa [runSupervisor, hc] using h
        obtain ⟨h1, h2⟩ := ih (i + 1) k h'
        constructor
        · simp [runSupervisor, hc, h1]
        · simp [runSupervisor, hc, h2]
      | Url u =>
        cases hr : o.recv k with
        | none => simp [runSupervisor, hc, hr] at h
        | some r =>
          cases r with
          | Ok img =>
            cases hs : o.saveResult k with
            | ok v =>
              have h' : (runSupervisor o ts (i + 1) (k + 1)).2 = Outcome.Panicked e := by
                simpa [runSupervisor, hc, hr, hs] using h
              obtain ⟨h1, h2⟩ := ih (i + 1) (k + 1) h'
              constructor
              · simp [runSupervisor, hc, hr, hs, h1]
              · simp [runSupervisor, hc, hr, hs, h2]
            | error e2 =>
              constructor
              · simp [runSupervisor, hc, hr, hs]
              · simp [runSupervisor, hc, hr, hs]
          | Err e2 =>
            have h' : (runSupervisor o ts (i + 1) (k + 1)).2 = Outcome.Panicked e := by
              simpa [runSupervisor, hc, hr] using h
            obtain ⟨h1, h2⟩ := ih (i + 1) (k + 1) h'
            constructor
            · simp [runSupervisor, hc, hr, h1]
            · simp [runSupervisor, hc, hr, h2]

/-- Witness for C10: the demo save-failure run panics with "disk full" and
its trace contains neither `SetExhausted` nor `ExitSend`. -/
theorem panic_skips_teardown_witness :
    (runSupervisor demoSaveFailOracles [Target.Url "http://a"] 0 0).2
      = Outcome.Panicked "disk full"
    ∧ Event.SetExhausted ∉ (runSupervisor demoSaveFailOracles [Target.Url "http://a"] 0 0).1
    ∧ Event.ExitSend ∉ (runSupervisor demoSaveFailOracles [Target.Url "http://a"] 0 0).1 :=
  ⟨rfl, panic_skips_teardown demoSaveFailOracles [Target.Url "http://a"] 0 0 "disk full" rfl⟩

end Scrying
